import Mathlib

/-!
Shallow embedding of the approvals backend (`src/main.py`): a FastAPI service
exposing create / list / approve / reject / seed operations over an
"approvalitem" collection in a document store, plus a diagnostics endpoint.

Documents are modelled as records of optional fields; the store state is the
list of documents of the `approvalitem` collection together with an
availability flag (`db is None` in the source) and a freshness counter for
generated identifiers.  HTTP failures are `Except.error` values carrying the
status code and detail string raised by the handler; `Except.ok` corresponds
to the route's declared success code (201 for create, 200 elsewhere).
Timestamps are natural numbers; the current time is passed as an explicit
`now` argument.  Floating-point amounts are modelled as integers (the only
operation on them is the sign check `ge=0`).
-/

/-- A JSON-ish value appearing in wire responses. -/
inductive Value where
  | null
  | str (s : String)
  | int (n : Int)
  | time (t : Nat)
deriving DecidableEq, Repr

/-- Wire format of a serialized item: the field map built by `serialize_item`. -/
abbrev Wire := List (String × Value)

/-- A stored document of the `approvalitem` collection.  Mongo documents are
field maps; the fields this program ever reads or writes are exactly these,
each possibly absent (`Option`). -/
structure Doc where
  _id : String
  title : Option String
  description : Option String
  requester : Option String
  amount : Option Int
  status : Option String
  created_at : Option Nat
  updated_at : Option Nat
deriving DecidableEq, Repr

/-- The store state seen by the handlers: availability of the `db` handle,
the documents of the `approvalitem` collection, and a counter from which the
store derives fresh object ids. -/
structure Store where
  dbAvailable : Bool
  docs : List Doc
  nextId : Nat
deriving DecidableEq, Repr

/-- An HTTP error raised by a handler (`HTTPException(status_code, detail)`). -/
structure HErr where
  code : Nat
  detail : String
deriving DecidableEq, Repr

/-- Hex digit predicate used by BSON ObjectId parsing. -/
def isHexChar (c : Char) : Bool :=
  (48 ≤ c.toNat && c.toNat ≤ 57) || (97 ≤ c.toNat && c.toNat ≤ 102) ||
    (65 ≤ c.toNat && c.toNat ≤ 70)

/-- A string parses as a BSON ObjectId iff it is a 24-character hex string. -/
def isValidObjectId (s : String) : Bool :=
  s.length = 24 && s.data.all isHexChar

/-- Hex character of a digit below 16. -/
def hexDigitChar (n : Nat) : Char :=
  if n < 10 then Char.ofNat (48 + n) else Char.ofNat (97 + (n - 10))

/-- The object id the store generates from its freshness counter: a
24-character hex rendering of the counter. -/
def idOfNat (n : Nat) : String :=
  String.mk ((List.range 24).map (fun i => hexDigitChar (n / 16 ^ (23 - i) % 16)))

/-- Embedding of `oid` (src/main.py:31-35): parse the path id into an
ObjectId, raising 400 "Invalid ID format" when it cannot be parsed. -/
def oid (id_str : String) : Except HErr String :=
  if isValidObjectId id_str then Except.ok id_str
  else Except.error ⟨400, "Invalid ID format"⟩

/-- Render an optional string field the way `doc.get(key)` feeds the wire map. -/
def optStr : Option String → Value
  | none => Value.null
  | some s => Value.str s

/-- Render an optional numeric field. -/
def optInt : Option Int → Value
  | none => Value.null
  | some n => Value.int n

/-- Render an optional timestamp field. -/
def optTime : Option Nat → Value
  | none => Value.null
  | some t => Value.time t

/-- The wire map `serialize_item` builds for a present document
(src/main.py:41-50): the eight external fields, with `status` defaulting to
"pending" and the raw `_id` exposed only as its string rendering under `id`. -/
def wireOf (d : Doc) : Wire :=
  [("id", Value.str d._id),
   ("title", optStr d.title),
   ("description", optStr d.description),
   ("requester", optStr d.requester),
   ("amount", optInt d.amount),
   ("status", Value.str (d.status.getD "pending")),
   ("created_at", optTime d.created_at),
   ("updated_at", optTime d.updated_at)]

/-- Embedding of `serialize_item` (src/main.py:38-50): `None` in, `None` out;
otherwise the eight-field wire map. -/
def serialize_item : Option Doc → Option Wire
  | none => none
  | some d => some (wireOf d)

/-- Embedding of `db[coll].find_one({"_id": i})`: the first stored document
whose id equals `i`. -/
def find_one (docs : List Doc) (i : String) : Option Doc :=
  docs.find? (fun d => d._id = i)

/-- Modelled from the spec: `database.create_document` (the `database` module
is not part of the sources).  Per §4.1/§4.2 it inserts the record into the
named collection, the store generating a fresh identifier and filling
`created_at` at insertion, and returns the generated id. -/
def create_document (_coll : String) (st : Store) (data : Doc) (now : Nat) :
    String × Store :=
  let newId := idOfNat st.nextId
  (newId,
   { st with
      docs := st.docs ++ [{ data with _id := newId, created_at := some now }],
      nextId := st.nextId + 1 })

/-- Embedding of `db[coll].update_one({"_id": i}, {"$set": ...})`: apply `f`
to the first document whose id is `i`, leaving the rest unchanged; returns the
new document list and the matched count (0 or 1). -/
def update_one (docs : List Doc) (i : String) (f : Doc → Doc) :
    List Doc × Nat :=
  match docs with
  | [] => ([], 0)
  | d :: ds =>
    if d._id = i then (f d :: ds, 1)
    else
      let r := update_one ds i f
      (d :: r.1, r.2)

/-- The `$set` document of the approve/reject handlers: set `status` and
`updated_at`, leaving every other field unchanged. -/
def set_status (s : String) (now : Nat) (d : Doc) : Doc :=
  { d with status := some s, updated_at := some now }

/-- Raw request body for the create endpoint: each schema field either absent
or present with the right type, plus a caller-supplied `status` field that the
schema does not declare (pydantic ignores undeclared fields). -/
structure RawBody where
  title : Option String
  description : Option String
  requester : Option String
  amount : Option Int
  status : Option String
deriving DecidableEq, Repr

/-- Embedding of the `ApprovalItemIn` pydantic model (src/main.py:22-26):
`title` and `requester` required strings, `description` optional, `amount`
optional with `ge=0`.  No `status` field is declared. -/
structure ApprovalItemIn where
  title : String
  description : Option String
  requester : String
  amount : Option Int
deriving DecidableEq, Repr

/-- Pydantic validation of the request body against `ApprovalItemIn`:
fails (a 422 from FastAPI) iff `title` or `requester` is absent or `amount`
is present and negative.  A plain `str` field accepts the empty string. -/
def validateBody (b : RawBody) : Option ApprovalItemIn :=
  match b.title, b.requester with
  | some t, some r =>
    match b.amount with
    | some a => if a < 0 then none else some ⟨t, b.description, r, some a⟩
    | none => some ⟨t, b.description, r, none⟩
  | _, _ => none

/-- Embedding of `create_approval` (src/main.py:97-104): validate the body
(422 on failure, before the handler body runs), set `status` to "pending",
insert via `create_document`, re-fetch by the generated id and serialize.
The handler has no `db is None` guard; with no store handle the attribute
access fails and FastAPI answers 500. -/
def create_approval (st : Store) (b : RawBody) (now : Nat) :
    Except HErr (Store × Option Wire) :=
  match validateBody b with
  | none => Except.error ⟨422, "Unprocessable Entity"⟩
  | some item =>
    if st.dbAvailable = false then
      Except.error ⟨500, "Internal Server Error"⟩
    else
      let data : Doc :=
        { _id := "", title := some item.title, description := item.description,
          requester := some item.requester, amount := item.amount,
          status := some "pending", created_at := none, updated_at := none }
      let r := create_document "approvalitem" st data now
      Except.ok (r.2, serialize_item (find_one r.2.docs r.1))

/-- The query values the `status` parameter's pattern admits. -/
def allowedStatus (s : String) : Bool :=
  s = "pending" || s = "approved" || s = "rejected"

/-- Descending comparison on `created_at` keys: an absent timestamp sorts
below every present one (Mongo sorts missing fields as null, last in
descending order). -/
def caGeB : Option Nat → Option Nat → Bool
  | none, none => true
  | none, some _ => false
  | some _, none => true
  | some x, some y => y ≤ x

/-- The sort order of the list endpoint: `created_at` descending. -/
def createdDesc (a b : Doc) : Prop :=
  caGeB a.created_at b.created_at = true

instance : DecidableRel createdDesc := fun a b =>
  inferInstanceAs (Decidable (caGeB a.created_at b.created_at = true))

/-- Embedding of `list_approvals` (src/main.py:88-94): FastAPI validates the
`status` query parameter against the pattern (422) before the handler runs;
the handler then requires the store (500), filters the collection on the
effective status (default "pending") and returns the matches sorted by
`created_at` descending, serialized. -/
def list_approvals (st : Store) (statusParam : Option String) :
    Except HErr (List Wire) :=
  let q := statusParam.getD "pending"
  if allowedStatus q = false then Except.error ⟨422, "Unprocessable Entity"⟩
  else if st.dbAvailable = false then
    Except.error ⟨500, "Database not available"⟩
  else
    Except.ok
      ((List.insertionSort createdDesc
          (st.docs.filter (fun d => d.status = some q))).map wireOf)

/-- Embedding of `approve_item` (src/main.py:107-115): require the store
(500), parse the id (400), set status/updated_at on the matching document,
404 when nothing matched, else re-fetch and serialize. -/
def approve_item (st : Store) (item_id : String) (now : Nat) :
    Except HErr (Store × Option Wire) :=
  if st.dbAvailable = false then Except.error ⟨500, "Database not available"⟩
  else
    match oid item_id with
    | Except.error e => Except.error e
    | Except.ok i =>
      let r := update_one st.docs i (set_status "approved" now)
      if r.2 = 0 then Except.error ⟨404, "Item not found"⟩
      else
        let st' : Store := { st with docs := r.1 }
        Except.ok (st', serialize_item (find_one st'.docs i))

/-- Embedding of `reject_item` (src/main.py:118-126): as `approve_item` with
status "rejected". -/
def reject_item (st : Store) (item_id : String) (now : Nat) :
    Except HErr (Store × Option Wire) :=
  if st.dbAvailable = false then Except.error ⟨500, "Database not available"⟩
  else
    match oid item_id with
    | Except.error e => Except.error e
    | Except.ok i =>
      let r := update_one st.docs i (set_status "rejected" now)
      if r.2 = 0 then Except.error ⟨404, "Item not found"⟩
      else
        let st' : Store := { st with docs := r.1 }
        Except.ok (st', serialize_item (find_one st'.docs i))

/-- The four fixed sample records of the seed endpoint (src/main.py:136-141),
before the store fills id and `created_at`. -/
def sampleDocs : List Doc :=
  [{ _id := "", title := some "Marketing Spend Q1",
     description := some "Campaign boost on socials", requester := some "Ava",
     amount := some 1200, status := some "pending", created_at := none,
     updated_at := none },
   { _id := "", title := some "Laptop Purchase",
     description := some "Designer MacBook Pro", requester := some "Leo",
     amount := some 2499, status := some "pending", created_at := none,
     updated_at := none },
   { _id := "", title := some "SaaS Renewal",
     description := some "Analytics tool annual plan", requester := some "Mia",
     amount := some 780, status := some "pending", created_at := none,
     updated_at := none },
   { _id := "", title := some "Team Offsite",
     description := some "Venue deposit", requester := some "Noah",
     amount := some 1500, status := some "pending", created_at := none,
     updated_at := none }]

/-- Insert a list of records one by one through `create_document`. -/
def insertAll (st : Store) (ds : List Doc) (now : Nat) : Store :=
  match ds with
  | [] => st
  | d :: rest => insertAll (create_document "approvalitem" st d now).2 rest now

/-- Embedding of `seed_data` (src/main.py:129-144): require the store (500);
if the collection already has documents answer inserted = 0 without touching
it, else insert the four samples and answer inserted = 4. -/
def seed_data (st : Store) (now : Nat) : Except HErr (Store × Nat) :=
  if st.dbAvailable = false then Except.error ⟨500, "Database not available"⟩
  else if st.docs.length > 0 then Except.ok (st, 0)
  else Except.ok (insertAll st sampleDocs now, sampleDocs.length)

/-- State of the store handle as the diagnostics endpoint sees it: absent
(`db is None`), or a handle with a name whose `list_collection_names` call
either returns names or raises an error message. -/
structure DiagDb where
  name : String
  listCollectionNames : Except String (List String)

/-- Response body of the diagnostics endpoint. -/
structure DiagResponse where
  backend : String
  database : String
  database_url : Option String
  database_name : Option String
  connection_status : String
  collections : List String
deriving DecidableEq, Repr

/-- Truncation `str(e)[:50]` used when embedding a store error message. -/
def strTake50 (s : String) : String := String.mk (s.data.take 50)

/-- Embedding of `test_database` (src/main.py:58-84): a total function into
the response body — every store outcome, including a failing
`list_collection_names`, is caught and reported as data, and at most ten
collection names are listed.  The handler has no failure path, so the route
answers 200 for every store state. -/
def test_database (dbOpt : Option DiagDb) (envSet : Bool) : DiagResponse :=
  match dbOpt with
  | none =>
    { backend := "✅ Running", database := "⚠️ Available but not initialized",
      database_url := none, database_name := none,
      connection_status := "Not Connected", collections := [] }
  | some d =>
    let base : DiagResponse :=
      { backend := "✅ Running", database := "✅ Available",
        database_url := some (if envSet then "✅ Set" else "❌ Not Set"),
        database_name := some d.name, connection_status := "Connected",
        collections := [] }
    match d.listCollectionNames with
    | Except.ok cols =>
      { base with collections := cols.take 10,
                  database := "✅ Connected & Working" }
    | Except.error e =>
      { base with database := "⚠️ Connected but Error: " ++ strTake50 e }

/-- The document `create_approval` inserts for a validated body: schema
fields, status forced to "pending", the store-generated id and insertion
timestamp. -/
def newDocOf (it : ApprovalItemIn) (n : Nat) (now : Nat) : Doc :=
  { _id := idOfNat n, title := some it.title, description := it.description,
    requester := some it.requester, amount := it.amount,
    status := some "pending", created_at := some now, updated_at := none }

/-- Empty available store used to instantiate theorems at concrete inputs. -/
def stEmpty : Store := ⟨true, [], 0⟩

/-- A valid create body that also carries a caller-supplied status field. -/
def bodyDesk : RawBody := ⟨some "Desk", none, some "Sam", some 300, some "approved"⟩

/-- The validated form of `bodyDesk`. -/
def itemDesk : ApprovalItemIn := ⟨"Desk", none, "Sam", some 300⟩

/-- A body whose `title` is present but empty. -/
def bodyEmptyTitle : RawBody := ⟨some "", none, some "Sam", none, none⟩

/-- A body with no `title` field. -/
def bodyNoTitle : RawBody := ⟨none, none, some "Sam", none, none⟩

/-- Sample stored document: approved, created at time 5. -/
def docA : Doc :=
  ⟨idOfNat 0, some "A", none, some "Ava", some 1, some "approved", some 5, none⟩

/-- Sample stored document: approved, created at time 9. -/
def docB : Doc :=
  ⟨idOfNat 1, some "B", none, some "Bo", none, some "approved", some 9, none⟩

/-- Sample stored document: pending, created at time 7. -/
def docC : Doc :=
  ⟨idOfNat 2, some "C", none, some "Cy", none, some "pending", some 7, none⟩

/-- Available store holding the three sample documents. -/
def stThree : Store := ⟨true, [docA, docB, docC], 3⟩

/-- The store after approving `docC` in `stThree` at time 11. -/
def stThreeApproved : Store :=
  ⟨true, [docA, docB, set_status "approved" 11 docC], 3⟩

instance : IsTotal Doc createdDesc :=
  ⟨fun a b => by
    unfold createdDesc
    cases ha : a.created_at <;> cases hb : b.created_at <;> simp [caGeB]
    omega⟩

instance : IsTrans Doc createdDesc :=
  ⟨fun a b c h1 h2 => by
    unfold createdDesc at *
    cases ha : a.created_at <;> cases hb : b.created_at <;>
        cases hc : c.created_at <;> simp_all [caGeB]
    omega⟩

theorem find_one_nil (i : String) : find_one [] i = none := rfl

theorem find_one_cons (d : Doc) (ds : List Doc) (i : String) :
    find_one (d :: ds) i = if d._id = i then some d else find_one ds i := by
  by_cases h : d._id = i <;> simp [find_one, List.find?_cons, h]

theorem find_one_append (docs : List Doc) (x : Doc) (i : String)
    (h : ∀ d ∈ docs, d._id ≠ i) :
    find_one (docs ++ [x]) i = if x._id = i then some x else none := by
  induction docs with
  | nil => rw [List.nil_append, find_one_cons, find_one_nil]
  | cons d ds ih =>
    have hd : d._id ≠ i := h d (by simp)
    have := ih (fun e he => h e (by simp [he]))
    simpa [find_one_cons, hd] using this

theorem update_one_not_found (docs : List Doc) (i : String) (f : Doc → Doc)
    (h : ∀ d ∈ docs, d._id ≠ i) : update_one docs i f = (docs, 0) := by
  induction docs with
  | nil => rfl
  | cons d ds ih =>
    have hd : d._id ≠ i := h d (by simp)
    have := ih (fun e he => h e (by simp [he]))
    simp [update_one, hd, this]

theorem update_one_found (docs : List Doc) (i : String) (f : Doc → Doc)
    (h : (update_one docs i f).2 ≠ 0) :
    ∃ pre d post, docs = pre ++ d :: post ∧ d._id = i ∧ (∀ e ∈ pre, e._id ≠ i)
      ∧ (update_one docs i f).1 = pre ++ f d :: post := by
  induction docs with
  | nil => simp [update_one] at h
  | cons d ds ih =>
    by_cases hd : d._id = i
    · exact ⟨[], d, ds, by simp, hd, by simp, by simp [update_one, hd]⟩
    · have h2 : (update_one ds i f).2 ≠ 0 := by
        simpa [update_one, hd] using h
      obtain ⟨pre, e, post, hdocs, hid, hpre, hupd⟩ := ih h2
      refine ⟨d :: pre, e, post, by simp [hdocs], hid, ?_,
        by simp [update_one, hd, hupd]⟩
      intro x hx
      rcases List.mem_cons.mp hx with h1 | h1
      · rw [h1]; exact hd
      · exact hpre x h1

theorem validateBody_eq_none_iff (b : RawBody) :
    validateBody b = none ↔
      (b.title = none ∨ b.requester = none ∨ ∃ a, b.amount = some a ∧ a < 0) := by
  rcases b with ⟨t, d, r, a, s⟩
  cases t <;> cases r <;> cases a <;> simp [validateBody]

theorem create_ok_aux (st : Store) (b : RawBody) (it : ApprovalItemIn)
    (now : Nat) (hdb : st.dbAvailable = true) (hv : validateBody b = some it)
    (hf : ∀ d ∈ st.docs, d._id ≠ idOfNat st.nextId) :
    create_approval st b now = Except.ok
      ({ st with docs := st.docs ++ [newDocOf it st.nextId now],
                 nextId := st.nextId + 1 },
       some (wireOf (newDocOf it st.nextId now))) := by
  unfold create_approval
  rw [hv]
  simp only [hdb, Bool.true_eq_false, if_false, create_document]
  rw [find_one_append _ _ _ hf, if_pos rfl]
  rfl

/-- C1: for every create request whose body passes validation, the created
item returned with the 201 response has status "pending", regardless of any
status field supplied by the caller (the schema declares no status field, and
the handler sets status to "pending" before insertion). -/
theorem create_forces_status_pending (st : Store) (b : RawBody)
    (it : ApprovalItemIn) (now : Nat)
    (hdb : st.dbAvailable = true)
    (hv : validateBody b = some it)
    (hf : ∀ d ∈ st.docs, d._id ≠ idOfNat st.nextId) :
    ∃ st' w, create_approval st b now = Except.ok (st', some w)
      ∧ w.lookup "status" = some (Value.str "pending") :=
  ⟨_, _, create_ok_aux st b it now hdb hv hf, rfl⟩

/-- Witness for C1: creating from `bodyDesk` (which carries a caller-supplied
status "approved") yields a record whose status is "pending". -/
theorem create_forces_status_pending_witness :
    ∃ st' w, create_approval stEmpty bodyDesk 7 = Except.ok (st', some w)
      ∧ w.lookup "status" = some (Value.str "pending") :=
  create_forces_status_pending stEmpty bodyDesk itemDesk 7 rfl rfl
    (by intro d hd; simp [stEmpty] at hd)

/-- C2 (counterexample to the claim as stated): a body whose `title` is
present but empty passes validation, and the create operation succeeds
instead of failing with 422. -/
theorem create_accepts_empty_title :
    bodyEmptyTitle.title = some ""
    ∧ (create_approval stEmpty bodyEmptyTitle 0).isOk = true :=
  ⟨rfl, rfl⟩

/-- C2 (amended): the create operation fails with 422 exactly when `title` or
`requester` is absent or `amount` is present and negative — empty strings are
accepted — and every body with `title` and `requester` present (possibly
empty) and `amount` (if present) nonnegative succeeds with 201 and the
created record. -/
theorem create_422_iff_invalid (st : Store) (b : RawBody) (now : Nat)
    (hdb : st.dbAvailable = true)
    (hf : ∀ d ∈ st.docs, d._id ≠ idOfNat st.nextId) :
    (create_approval st b now = Except.error ⟨422, "Unprocessable Entity"⟩ ↔
      (b.title = none ∨ b.requester = none ∨ ∃ a, b.amount = some a ∧ a < 0))
    ∧ ((b.title ≠ none ∧ b.requester ≠ none ∧
          ∀ a, b.amount = some a → 0 ≤ a) →
        ∃ st' w, create_approval st b now = Except.ok (st', some w)) := by
  constructor
  · rw [← validateBody_eq_none_iff]
    constructor
    · intro h
      cases hv : validateBody b with
      | none => rfl
      | some it => rw [create_ok_aux st b it now hdb hv hf] at h; cases h
    · intro h
      unfold create_approval
      rw [h]
  · rintro ⟨h1, h2, h3⟩
    cases hv : validateBody b with
    | none =>
      rcases (validateBody_eq_none_iff b).mp hv with h | h | ⟨a, ha, hneg⟩
      · exact absurd h h1
      · exact absurd h h2
      · exact absurd (h3 a ha) (by omega)
    | some it => exact ⟨_, _, create_ok_aux st b it now hdb hv hf⟩

/-- Witness for C2's amended theorem: instantiated at a body with no title,
which is rejected with 422. -/
theorem create_422_iff_invalid_witness :
    (create_approval stEmpty bodyNoTitle 3 =
        Except.error ⟨422, "Unprocessable Entity"⟩ ↔
      (bodyNoTitle.title = none ∨ bodyNoTitle.requester = none ∨
        ∃ a, bodyNoTitle.amount = some a ∧ a < 0))
    ∧ ((bodyNoTitle.title ≠ none ∧ bodyNoTitle.requester ≠ none ∧
          ∀ a, bodyNoTitle.amount = some a → 0 ≤ a) →
        ∃ st' w, create_approval stEmpty bodyNoTitle 3 =
          Except.ok (st', some w)) :=
  create_422_iff_invalid stEmpty bodyNoTitle 3 rfl
    (by intro d hd; simp [stEmpty] at hd)

/-- C3: for every available store and every allowed status query value
(defaulting to "pending" when the parameter is absent), the list operation
returns exactly the stored items whose status equals that value — so listing
with status=approved never returns an item stored with another status —
serialized in `created_at`-descending order. -/
theorem list_returns_matching_sorted (st : Store) (p : Option String)
    (q : String) (hdb : st.dbAvailable = true)
    (hq : allowedStatus q = true) (hp : p.getD "pending" = q) :
    ∃ ds : List Doc,
      list_approvals st p = Except.ok (ds.map wireOf)
      ∧ List.Perm ds (st.docs.filter (fun d => d.status = some q))
      ∧ List.Sorted createdDesc ds
      ∧ ∀ d ∈ ds, d.status = some q := by
  refine ⟨List.insertionSort createdDesc
    (st.docs.filter (fun d => d.status = some q)), ?_, ?_, ?_, ?_⟩
  · simp [list_approvals, hp, hq, hdb]
  · exact List.perm_insertionSort _ _
  · exact List.sorted_insertionSort _ _
  · intro d hd
    have hm : d ∈ st.docs.filter (fun d => d.status = some q) :=
      (List.perm_insertionSort createdDesc _).mem_iff.mp hd
    simpa using (List.mem_filter.mp hm).2

/-- Witness for C3: listing `stThree` with status=approved. -/
theorem list_returns_matching_sorted_witness :
    ∃ ds : List Doc,
      list_approvals stThree (some "approved") = Except.ok (ds.map wireOf)
      ∧ List.Perm ds
          (stThree.docs.filter (fun d => d.status = some "approved"))
      ∧ List.Sorted createdDesc ds
      ∧ ∀ d ∈ ds, d.status = some "approved" :=
  list_returns_matching_sorted stThree (some "approved") "approved" rfl
    (by decide) rfl

/-- C4: approving (or rejecting) a well-formed id that matches no stored item
returns 404, and the underlying update matches nothing, leaving every
document in the collection unchanged. -/
theorem approve_missing_id_404 (st : Store) (i : String) (now : Nat)
    (hdb : st.dbAvailable = true) (hv : isValidObjectId i = true)
    (hm : ∀ d ∈ st.docs, d._id ≠ i) :
    approve_item st i now = Except.error ⟨404, "Item not found"⟩
    ∧ reject_item st i now = Except.error ⟨404, "Item not found"⟩
    ∧ (update_one st.docs i (set_status "approved" now)).1 = st.docs
    ∧ (update_one st.docs i (set_status "rejected" now)).1 = st.docs := by
  have ha := update_one_not_found st.docs i (set_status "approved" now) hm
  have hr := update_one_not_found st.docs i (set_status "rejected" now) hm
  exact ⟨by simp [approve_item, hdb, oid, hv, ha],
         by simp [reject_item, hdb, oid, hv, hr],
         by rw [ha], by rw [hr]⟩

/-- Witness for C4: a fresh well-formed id against `stThree`. -/
theorem approve_missing_id_404_witness :
    approve_item stThree (idOfNat 9) 0 = Except.error ⟨404, "Item not found"⟩
    ∧ reject_item stThree (idOfNat 9) 0 = Except.error ⟨404, "Item not found"⟩
    ∧ (update_one stThree.docs (idOfNat 9)
        (set_status "approved" 0)).1 = stThree.docs
    ∧ (update_one stThree.docs (idOfNat 9)
        (set_status "rejected" 0)).1 = stThree.docs :=
  approve_missing_id_404 stThree (idOfNat 9) 0 rfl (by decide) (by decide)

/-- C5: an id string that does not parse as an ObjectId makes approve and
reject fail with 400 "Invalid ID format", a status distinct from the 404
returned for a well-formed id with no match. -/
theorem malformed_id_400 (st : Store) (i : String) (now : Nat)
    (hdb : st.dbAvailable = true) (hv : isValidObjectId i = false) :
    approve_item st i now = Except.error ⟨400, "Invalid ID format"⟩
    ∧ reject_item st i now = Except.error ⟨400, "Invalid ID format"⟩
    ∧ (400 : Nat) ≠ 404 :=
  ⟨by simp [approve_item, hdb, oid, hv],
   by simp [reject_item, hdb, oid, hv],
   by omega⟩

/-- Witness for C5: the id "xyz" cannot be parsed. -/
theorem malformed_id_400_witness :
    approve_item stThree "xyz" 0 = Except.error ⟨400, "Invalid ID format"⟩
    ∧ reject_item stThree "xyz" 0 = Except.error ⟨400, "Invalid ID format"⟩
    ∧ (400 : Nat) ≠ 404 :=
  malformed_id_400 stThree "xyz" 0 rfl (by decide)

theorem approve_ok_inversion (st : Store) (i : String) (now : Nat)
    (st' : Store) (w : Option Wire)
    (h : approve_item st i now = Except.ok (st', w)) :
    st.dbAvailable = true ∧ isValidObjectId i = true
    ∧ (update_one st.docs i (set_status "approved" now)).2 ≠ 0
    ∧ st'.docs = (update_one st.docs i (set_status "approved" now)).1 := by
  cases hb : st.dbAvailable with
  | false => simp [approve_item, hb] at h
  | true =>
    cases hvi : isValidObjectId i with
    | false => simp [approve_item, hb, oid, hvi] at h
    | true =>
      cases hr2 : (update_one st.docs i (set_status "approved" now)).2 with
      | zero => simp [approve_item, hb, oid, hvi, hr2] at h
      | succ n =>
        simp [approve_item, hb, oid, hvi, hr2] at h
        exact ⟨rfl, rfl, by omega, by rw [← h.1]⟩

theorem reject_ok_inversion (st : Store) (i : String) (now : Nat)
    (st' : Store) (w : Option Wire)
    (h : reject_item st i now = Except.ok (st', w)) :
    st.dbAvailable = true ∧ isValidObjectId i = true
    ∧ (update_one st.docs i (set_status "rejected" now)).2 ≠ 0
    ∧ st'.docs = (update_one st.docs i (set_status "rejected" now)).1 := by
  cases hb : st.dbAvailable with
  | false => simp [reject_item, hb] at h
  | true =>
    cases hvi : isValidObjectId i with
    | false => simp [reject_item, hb, oid, hvi] at h
    | true =>
      cases hr2 : (update_one st.docs i (set_status "rejected" now)).2 with
      | zero => simp [reject_item, hb, oid, hvi, hr2] at h
      | succ n =>
        simp [reject_item, hb, oid, hvi, hr2] at h
        exact ⟨rfl, rfl, by omega, by rw [← h.1]⟩

/-- C6: a successful approve (or reject) changes only the status and
updated_at of the matched document — id, title, description, requester,
amount and created_at are untouched — and every other document in the
collection is unchanged; `set_status` rewrites no other field. -/
theorem approve_reject_frame (st : Store) (i : String) (now : Nat) :
    (∀ st' w, approve_item st i now = Except.ok (st', w) →
      ∃ pre d post,
        st.docs = pre ++ d :: post ∧ d._id = i ∧ (∀ e ∈ pre, e._id ≠ i)
        ∧ st'.docs = pre ++ set_status "approved" now d :: post)
    ∧ (∀ st' w, reject_item st i now = Except.ok (st', w) →
      ∃ pre d post,
        st.docs = pre ++ d :: post ∧ d._id = i ∧ (∀ e ∈ pre, e._id ≠ i)
        ∧ st'.docs = pre ++ set_status "rejected" now d :: post)
    ∧ (∀ s now2 (d : Doc),
        (set_status s now2 d)._id = d._id
        ∧ (set_status s now2 d).title = d.title
        ∧ (set_status s now2 d).description = d.description
        ∧ (set_status s now2 d).requester = d.requester
        ∧ (set_status s now2 d).amount = d.amount
        ∧ (set_status s now2 d).created_at = d.created_at) := by
  refine ⟨?_, ?_, fun s now2 d => ⟨rfl, rfl, rfl, rfl, rfl, rfl⟩⟩
  · intro st' w h
    obtain ⟨_, _, hr, hst⟩ := approve_ok_inversion st i now st' w h
    obtain ⟨pre, d, post, h1, h2, h3, h4⟩ :=
      update_one_found st.docs i (set_status "approved" now) hr
    exact ⟨pre, d, post, h1, h2, h3, by rw [hst, h4]⟩
  · intro st' w h
    obtain ⟨_, _, hr, hst⟩ := reject_ok_inversion st i now st' w h
    obtain ⟨pre, d, post, h1, h2, h3, h4⟩ :=
      update_one_found st.docs i (set_status "rejected" now) hr
    exact ⟨pre, d, post, h1, h2, h3, by rw [hst, h4]⟩

/-- Witness for C6: approving `docC` inside `stThree` at time 11 yields the
decomposition around `docC` with the other documents unchanged. -/
theorem approve_reject_frame_witness :
    ∃ pre d post,
      stThree.docs = pre ++ d :: post ∧ d._id = idOfNat 2
      ∧ (∀ e ∈ pre, e._id ≠ idOfNat 2)
      ∧ stThreeApproved.docs = pre ++ set_status "approved" 11 d :: post :=
  (approve_reject_frame stThree (idOfNat 2) 11).1 stThreeApproved
    (some (wireOf (set_status "approved" 11 docC))) rfl

/-- C7: seeding an empty collection inserts exactly the four fixed sample
records and reports inserted = 4; seeding any non-empty collection inserts
nothing and reports inserted = 0 — so two successive calls insert 4 then 0. -/
theorem seed_idempotent (st : Store) (now now2 : Nat)
    (hdb : st.dbAvailable = true) (he : st.docs = []) :
    ∃ st' : Store,
      seed_data st now = Except.ok (st', 4)
      ∧ st'.docs.length = 4
      ∧ st'.docs.map Doc.title =
          [some "Marketing Spend Q1", some "Laptop Purchase",
           some "SaaS Renewal", some "Team Offsite"]
      ∧ seed_data st' now2 = Except.ok (st', 0)
      ∧ (∀ st2 : Store, st2.dbAvailable = true → st2.docs ≠ [] →
          seed_data st2 now2 = Except.ok (st2, 0)) := by
  obtain ⟨db, docs, n⟩ := st
  simp only at hdb he
  subst hdb he
  refine ⟨insertAll ⟨true, [], n⟩ sampleDocs now, ?_, ?_, ?_, ?_, ?_⟩
  · rfl
  · simp [insertAll, create_document, sampleDocs]
  · simp [insertAll, create_document, sampleDocs]
  · simp [seed_data, insertAll, create_document, sampleDocs]
  · intro st2 h1 h2
    have hl : 0 < st2.docs.length := List.length_pos.mpr h2
    simp [seed_data, h1, hl, Nat.not_eq_zero_of_lt hl]

/-- Witness for C7: seeding the empty store. -/
theorem seed_idempotent_witness :
    ∃ st' : Store,
      seed_data stEmpty 4 = Except.ok (st', 4)
      ∧ st'.docs.length = 4
      ∧ st'.docs.map Doc.title =
          [some "Marketing Spend Q1", some "Laptop Purchase",
           some "SaaS Renewal", some "Team Offsite"]
      ∧ seed_data st' 9 = Except.ok (st', 0)
      ∧ (∀ st2 : Store, st2.dbAvailable = true → st2.docs ≠ [] →
          seed_data st2 9 = Except.ok (st2, 0)) :=
  seed_idempotent stEmpty 4 9 rfl rfl

/-- C8: serializing a present record yields the map of exactly the eight
external fields in order — id, title, description, requester, amount,
status, created_at, updated_at — with status defaulting to "pending" when
absent from the record and the raw store identifier key omitted; serializing
an absent record yields the explicit absent marker. -/
theorem serialize_item_shape (d : Doc) :
    serialize_item (some d) = some (wireOf d)
    ∧ (wireOf d).map Prod.fst =
        ["id", "title", "description", "requester", "amount", "status",
         "created_at", "updated_at"]
    ∧ (wireOf d).lookup "status" =
        some (Value.str (d.status.getD "pending"))
    ∧ (wireOf d).lookup "_id" = none
    ∧ serialize_item none = none :=
  ⟨rfl, rfl, rfl, rfl, rfl⟩

/-- C9: the diagnostics endpoint lists at most ten collection names, and a
failing `list_collection_names` call is caught and reported as a string in
the `database` field of the (always 200) response body rather than failing
the request. -/
theorem test_database_bounded_and_catches (dbOpt : Option DiagDb)
    (envSet : Bool) :
    (test_database dbOpt envSet).collections.length ≤ 10
    ∧ (∀ nm e, test_database (some ⟨nm, Except.error e⟩) envSet =
        { backend := "✅ Running",
          database := "⚠️ Connected but Error: " ++ strTake50 e,
          database_url := some (if envSet then "✅ Set" else "❌ Not Set"),
          database_name := some nm, connection_status := "Connected",
          collections := [] }) := by
  refine ⟨?_, fun nm e => rfl⟩
  cases dbOpt with
  | none => simp [test_database]
  | some d =>
    cases hd : d.listCollectionNames with
    | ok cols => simp [test_database, hd, List.length_take]
    | error e => simp [test_database, hd]

/-- C10: the store-availability check precedes identifier parsing in approve
and reject — with no live store connection every id string, malformed or not,
yields 500, never 400. -/
theorem db_check_precedes_id_parse (st : Store) (i : String) (now : Nat)
    (hdb : st.dbAvailable = false) :
    approve_item st i now = Except.error ⟨500, "Database not available"⟩
    ∧ reject_item st i now = Except.error ⟨500, "Database not available"⟩ :=
  ⟨by simp [approve_item, hdb], by simp [reject_item, hdb]⟩

/-- Witness for C10: a malformed id against an unavailable store still
answers 500. -/
theorem db_check_precedes_id_parse_witness :
    approve_item ⟨false, [], 0⟩ "not-a-valid-object-id" 3 =
      Except.error ⟨500, "Database not available"⟩
    ∧ reject_item ⟨false, [], 0⟩ "not-a-valid-object-id" 3 =
      Except.error ⟨500, "Database not available"⟩ :=
  db_check_precedes_id_parse ⟨false, [], 0⟩ "not-a-valid-object-id" 3 rfl
